import Mathlib

/-!
Shallow embedding of `src/src/scenes/ThreePortfolio.tsx`.

The file holds two renditions of the `ThreePortfolio` React component.  The
second rendition (the one with speed / direction / play-pause controls) is the
main subject of the claims; the first rendition's per-frame progress update
`(progress + 0.001) % 1` is embedded as well for the refinement comparison.

JavaScript numbers are modelled as exact rationals (ℚ); `x % 1` is modelled by
the JavaScript truncated remainder `jsMod1`.  The three.js calls that the
animation loop makes (`curve.getPoint`, `ball.position.copy`, `ball.lookAt`,
`controls.update`, `renderer.render`, `requestAnimationFrame`) are reflected
as follows: the curve is a function `ℚ → Vec3` passed to the frame step (and
separately the closed centripetal Catmull-Rom `getPoint` of three.js is
embedded as `getPointClosed`); the ball's position and its `lookAt` target are
state fields; the unconditional per-frame effects are recorded in the frame's
output record.
-/

namespace ThreePortfolio

/-- Vector with three rational coordinates, modelling `THREE.Vector3`. -/
structure Vec3 where
  x : ℚ
  y : ℚ
  z : ℚ
deriving DecidableEq, Repr

/-- JavaScript `Math.trunc`-style integer part (rounding toward zero), the
integer that the JavaScript `%` operator subtracts a multiple of the divisor
by.  For a nonnegative argument it coincides with the floor. -/
def jsTrunc (q : ℚ) : ℤ :=
  if 0 ≤ q then ⌊q⌋ else -⌊-q⌋

/-- JavaScript `x % 1`: the truncated remainder of `x` by `1`. -/
def jsMod1 (x : ℚ) : ℚ :=
  x - jsTrunc x

/-- Per-frame update of `progress` in the first rendition (line 128):
`sceneRef.current.progress = (progress + 0.001) % 1`. -/
def progressUpdateV1 (progress : ℚ) : ℚ :=
  jsMod1 (progress + 1/1000)

/-- Wraparound of the second rendition's animation loop (lines 348-352):
`let newProgress = progress + speed * direction;`
`if (newProgress > 1) newProgress = 0;`
`if (newProgress < 0) newProgress = 1;`. -/
def wrapProgress (x : ℚ) : ℚ :=
  if x > 1 then 0 else if x < 0 then 1 else x

/-- The control refs read by the animation loop each frame
(`speedRef`, `directionRef`, `isPlayingRef`, lines 180-182). -/
structure Controls where
  speed : ℚ
  direction : ℚ
  isPlaying : Bool
deriving DecidableEq, Repr

/-- The mutable scene state that a frame of the animation loop reads and
writes: `sceneRef.current.progress`, the ball's position, and the ball's
orientation.  The orientation is modelled by the last `lookAt` target
(`none` before the first `lookAt`). -/
structure AnimState where
  progress : ℚ
  ballPos : Vec3
  ballLook : Option Vec3
deriving DecidableEq, Repr

/-- Output of one invocation of `animate` (lines 341-367): the updated scene
state together with the per-frame effects the body performs unconditionally:
`controls.update()`, `renderer.render(scene, camera)`, and the number of
`requestAnimationFrame` calls it makes. -/
structure FrameOut where
  state : AnimState
  controlsUpdated : Bool
  rendered : Bool
  scheduled : Nat
deriving DecidableEq, Repr

/-- One invocation of the second rendition's `animate` body (lines 341-367),
after the `sceneRef.current` guard.  `curveAt` stands for `curve.getPoint`.
When `isPlayingRef.current` holds, the progress is advanced and wrapped
(lines 348-354), the ball is moved to the curve point at the new progress
(lines 356-357), and the ball looks at
`curve.getPoint((newProgress + 0.01 * direction + 1) % 1)` (lines 360-361).
`controls.update()`, the render, and the single `requestAnimationFrame` call
(lines 364-366) happen in either case. -/
def animateFrame (curveAt : ℚ → Vec3) (c : Controls) (st : AnimState) : FrameOut :=
  if c.isPlaying then
    let newProgress := wrapProgress (st.progress + c.speed * c.direction)
    let point := curveAt newProgress
    let nextPoint := curveAt (jsMod1 (newProgress + 1/100 * c.direction + 1))
    { state := { progress := newProgress, ballPos := point, ballLook := some nextPoint }
      controlsUpdated := true
      rendered := true
      scheduled := 1 }
  else
    { state := st
      controlsUpdated := true
      rendered := true
      scheduled := 1 }

/-- Curve parameters at which a frame invokes `curve.getPoint`: the updated
progress (line 356) and the wrapped look-ahead parameter (line 360) when
playing, none when paused. -/
def frameEvalParams (c : Controls) (st : AnimState) : List ℚ :=
  if c.isPlaying then
    let newProgress := wrapProgress (st.progress + c.speed * c.direction)
    [newProgress, jsMod1 (newProgress + 1/100 * c.direction + 1)]
  else []

/-- Scene state installed before the loop starts (lines 326-338): progress 0
and the ball placed at `curve.getPoint(0)`; no `lookAt` has happened yet. -/
def initState (curveAt : ℚ → Vec3) : AnimState :=
  { progress := 0, ballPos := curveAt 0, ballLook := none }

/-- Running the animation loop over a list of per-frame control readings. -/
def runFrames (curveAt : ℚ → Vec3) (cs : List Controls) (st : AnimState) : AnimState :=
  cs.foldl (fun s c => (animateFrame curveAt c s).state) st

/-- Browser event-loop view of the animation: the state together with the
number of pending `requestAnimationFrame` callbacks.  Firing the pending
callback removes it from the pending set and runs the `animate` body, which
schedules `scheduled` new callbacks (line 366 stores the id of the one it
requests in `sceneRef.current.animationFrameId`). -/
def runLoop (curveAt : ℚ → Vec3) : List Controls → AnimState × Nat → AnimState × Nat
  | [], x => x
  | c :: cs, (st, pending) =>
      let out := animateFrame curveAt c st
      runLoop curveAt cs (out.state, pending - 1 + out.scheduled)

/-- The `Slower` button (line 459):
`handleSpeedChange(Math.max(0.0001, controlState.speed - 0.0001))`. -/
def slowerPress (speed : ℚ) : ℚ :=
  max (1/10000) (speed - 1/10000)

/-- The `Faster` button (line 465):
`handleSpeedChange(Math.min(0.005, controlState.speed + 0.0001))`. -/
def fasterPress (speed : ℚ) : ℚ :=
  min (5/1000) (speed + 1/10000)

/-- A press of one of the two speed buttons. -/
inductive SpeedBtn where
  | slower
  | faster
deriving DecidableEq, Repr

/-- Effect of one button press on the stored speed. -/
def pressSpeed : SpeedBtn → ℚ → ℚ
  | SpeedBtn.slower, s => slowerPress s
  | SpeedBtn.faster, s => fasterPress s

/-- Speed after a sequence of button presses, starting from the initial speed
`0.001` (line 180 / line 184). -/
def speedAfter (bs : List SpeedBtn) : ℚ :=
  bs.foldl (fun s b => pressSpeed b s) (1/1000)

/-- Coefficients `(c0, c1, c2, c3)` of the three.js `CubicPoly` after
`initNonuniformCatmullRom(x0, x1, x2, x3, dt0, dt1, dt2)`:
the two knot-scaled tangents are formed and then `init(x1, x2, t1, t2)` sets
`c0 = x1`, `c1 = t1`, `c2 = -3 x1 + 3 x2 - 2 t1 - t2`,
`c3 = 2 x1 - 2 x2 + t1 + t2`. -/
def nonuniformCoeffs (x0 x1 x2 x3 dt0 dt1 dt2 : ℚ) : ℚ × ℚ × ℚ × ℚ :=
  let t1 := ((x1 - x0) / dt0 - (x2 - x0) / (dt0 + dt1) + (x2 - x1) / dt1) * dt1
  let t2 := ((x2 - x1) / dt1 - (x3 - x1) / (dt1 + dt2) + (x3 - x2) / dt2) * dt1
  (x1, t1, -3 * x1 + 3 * x2 - 2 * t1 - t2, 2 * x1 - 2 * x2 + t1 + t2)

/-- Evaluation `CubicPoly.calc(w) = c0 + c1 w + c2 w² + c3 w³`. -/
def cubicAt (c : ℚ × ℚ × ℚ × ℚ) (w : ℚ) : ℚ :=
  c.1 + c.2.1 * w + c.2.2.1 * w ^ 2 + c.2.2.2 * w ^ 3

/-- Embedding of `THREE.CatmullRomCurve3.getPoint` for a closed curve with the
default `centripetal` curve type (the repository passes only the points, lines
246-247, and sets `closed = true`).  Mirrors the three.js source:
`p = l * t` (closed curve), `intPoint = floor(p)`, `weight = p - intPoint`,
then for the closed case
`intPoint += intPoint > 0 ? 0 : (floor(|intPoint| / l) + 1) * l`, the four
control points are `points[(intPoint - 1) % l]` … `points[(intPoint + 2) % l]`
(after the adjustment `intPoint ≥ 1`, so the JavaScript remainder agrees with
`Int.emod`), and the knot spacings `dt0, dt1, dt2` with their small-value
safety checks feed the nonuniform cubic.  `dtf a b` abstracts
`Math.pow(a.distanceToSquared(b), 0.25)`, an irrational quantity which no
claim's truth depends on. -/
def getPointClosed (pts : List Vec3) (dtf : Vec3 → Vec3 → ℚ) (t : ℚ) : Vec3 :=
  let l : ℤ := pts.length
  let p : ℚ := l * t
  let ip0 : ℤ := ⌊p⌋
  let weight : ℚ := p - ip0
  let intPoint : ℤ := ip0 + (if 0 < ip0 then 0 else ((ip0.natAbs / pts.length : ℕ) + 1) * l)
  let ptAt : ℤ → Vec3 := fun k => pts.getD ((k % l).toNat) ⟨0, 0, 0⟩
  let p0 := ptAt (intPoint - 1)
  let p1 := ptAt intPoint
  let p2 := ptAt (intPoint + 1)
  let p3 := ptAt (intPoint + 2)
  let dt0r := dtf p0 p1
  let dt1r := dtf p1 p2
  let dt2r := dtf p2 p3
  let dt1 := if dt1r < 1/10000 then 1 else dt1r
  let dt0 := if dt0r < 1/10000 then dt1 else dt0r
  let dt2 := if dt2r < 1/10000 then dt1 else dt2r
  { x := cubicAt (nonuniformCoeffs p0.x p1.x p2.x p3.x dt0 dt1 dt2) weight
    y := cubicAt (nonuniformCoeffs p0.y p1.y p2.y p3.y dt0 dt1 dt2) weight
    z := cubicAt (nonuniformCoeffs p0.z p1.z p2.z p3.z dt0 dt1 dt2) weight }

/-- Track control points of the second rendition (lines 234-244). -/
def curvePoints : List Vec3 :=
  [⟨-10, 2, 0⟩, ⟨-5, 6, 5⟩, ⟨0, 2, 10⟩, ⟨5, 4, 5⟩, ⟨10, 2, 0⟩,
   ⟨5, 6, -5⟩, ⟨0, 2, -10⟩, ⟨-5, 4, -5⟩, ⟨-10, 2, 0⟩]

/-- Track control points of the first rendition (lines 52-62). -/
def curvePointsV1 : List Vec3 :=
  [⟨-10, 0, 0⟩, ⟨-5, 4, 5⟩, ⟨0, 0, 10⟩, ⟨5, -4, 5⟩, ⟨10, 0, 0⟩,
   ⟨5, 4, -5⟩, ⟨0, 0, -10⟩, ⟨-5, -4, -5⟩, ⟨-10, 0, 0⟩]

/-- Knot-spacing stand-in used to build concrete instances of the curve for
witnesses; the real `dtf` of three.js is the irrational
`Math.pow(distanceToSquared, 0.25)`, and none of the stated properties
depend on its values. -/
def unitDtf : Vec3 → Vec3 → ℚ := fun _ _ => 1

/-- Concrete instance of `curve.getPoint` for the second rendition's track. -/
def trackCurve : ℚ → Vec3 := getPointClosed curvePoints unitDtf

/-- Concrete control reading: initial speed `0.001`, direction `1`, playing. -/
def demoControls : Controls := { speed := 1/1000, direction := 1, isPlaying := true }

/-- Concrete control reading identical to `demoControls` but paused. -/
def pausedControls : Controls := { speed := 1/1000, direction := 1, isPlaying := false }

/-! ## Helper lemmas -/

theorem wrapProgress_mem (x : ℚ) : 0 ≤ wrapProgress x ∧ wrapProgress x ≤ 1 := by
  unfold wrapProgress
  split_ifs with h1 h2
  · norm_num
  · norm_num
  · push_neg at h1 h2
    exact ⟨h2, h1⟩

theorem jsMod1_mem (x : ℚ) (hx : 0 ≤ x) : 0 ≤ jsMod1 x ∧ jsMod1 x < 1 := by
  have h : jsMod1 x = Int.fract x := by
    unfold jsMod1 jsTrunc Int.fract
    rw [if_pos hx]
  rw [h]
  exact ⟨Int.fract_nonneg x, Int.fract_lt_one x⟩

theorem animateFrame_progress_mem (curveAt : ℚ → Vec3) (c : Controls) (st : AnimState)
    (h0 : 0 ≤ st.progress) (h1 : st.progress ≤ 1) :
    0 ≤ (animateFrame curveAt c st).state.progress ∧
      (animateFrame curveAt c st).state.progress ≤ 1 := by
  cases hc : c.isPlaying
  · simpa [animateFrame, hc] using ⟨h0, h1⟩
  · simpa [animateFrame, hc] using wrapProgress_mem (st.progress + c.speed * c.direction)

theorem runFrames_progress_mem (curveAt : ℚ → Vec3) (cs : List Controls) (st : AnimState)
    (h0 : 0 ≤ st.progress) (h1 : st.progress ≤ 1) :
    0 ≤ (runFrames curveAt cs st).progress ∧ (runFrames curveAt cs st).progress ≤ 1 := by
  induction cs generalizing st with
  | nil => exact ⟨h0, h1⟩
  | cons c cs ih =>
      have h := animateFrame_progress_mem curveAt c st h0 h1
      exact ih ((animateFrame curveAt c st).state) h.1 h.2

theorem pressSpeed_mem (b : SpeedBtn) (s : ℚ)
    (h0 : 1/10000 ≤ s) (h1 : s ≤ 5/1000) :
    1/10000 ≤ pressSpeed b s ∧ pressSpeed b s ≤ 5/1000 := by
  cases b
  · exact ⟨le_max_left _ _, max_le (by norm_num) (by linarith)⟩
  · exact ⟨le_min (by norm_num) (by linarith), min_le_left _ _⟩

/-! ## Claims -/

/-- C1: in a frame with playback active, the new progress is the old progress
advanced by `speed * direction` and wrapped back into `[0,1]`: it always lands
in `[0,1]`, equals the advanced value when that value is already in `[0,1]`,
and wraps to the opposite end (`0` after overflowing `1`, `1` after
underflowing `0`) otherwise. -/
theorem c1_progress_advance (curveAt : ℚ → Vec3) (c : Controls) (st : AnimState)
    (hplay : c.isPlaying = true) :
    (animateFrame curveAt c st).state.progress
        = wrapProgress (st.progress + c.speed * c.direction) ∧
    (0 ≤ (animateFrame curveAt c st).state.progress ∧
      (animateFrame curveAt c st).state.progress ≤ 1) ∧
    (0 ≤ st.progress + c.speed * c.direction →
      st.progress + c.speed * c.direction ≤ 1 →
      (animateFrame curveAt c st).state.progress
        = st.progress + c.speed * c.direction) ∧
    (1 < st.progress + c.speed * c.direction →
      (animateFrame curveAt c st).state.progress = 0) ∧
    (st.progress + c.speed * c.direction < 0 →
      (animateFrame curveAt c st).state.progress = 1) := by
  have hprog : (animateFrame curveAt c st).state.progress
      = wrapProgress (st.progress + c.speed * c.direction) := by
    simp [animateFrame, hplay]
  refine ⟨hprog, hprog ▸ wrapProgress_mem _, ?_, ?_, ?_⟩
  · intro ha hb
    rw [hprog]
    unfold wrapProgress
    rw [if_neg (by linarith), if_neg (by linarith)]
  · intro ha
    rw [hprog]
    unfold wrapProgress
    rw [if_pos ha]
  · intro ha
    rw [hprog]
    unfold wrapProgress
    rw [if_neg (by linarith), if_pos ha]

/-- Witness for C1 at the initial state and the initial control reading. -/
theorem c1_progress_advance_witness :
    demoControls.isPlaying = true ∧
    ((animateFrame trackCurve demoControls (initState trackCurve)).state.progress
        = wrapProgress ((initState trackCurve).progress
            + demoControls.speed * demoControls.direction) ∧
    (0 ≤ (animateFrame trackCurve demoControls (initState trackCurve)).state.progress ∧
      (animateFrame trackCurve demoControls (initState trackCurve)).state.progress ≤ 1) ∧
    (0 ≤ (initState trackCurve).progress + demoControls.speed * demoControls.direction →
      (initState trackCurve).progress + demoControls.speed * demoControls.direction ≤ 1 →
      (animateFrame trackCurve demoControls (initState trackCurve)).state.progress
        = (initState trackCurve).progress + demoControls.speed * demoControls.direction) ∧
    (1 < (initState trackCurve).progress + demoControls.speed * demoControls.direction →
      (animateFrame trackCurve demoControls (initState trackCurve)).state.progress = 0) ∧
    ((initState trackCurve).progress + demoControls.speed * demoControls.direction < 0 →
      (animateFrame trackCurve demoControls (initState trackCurve)).state.progress = 1)) :=
  ⟨rfl, c1_progress_advance trackCurve demoControls (initState trackCurve) rfl⟩

/-- C2: starting from the initial progress `0`, after any sequence of frames
(any speeds in the UI range, any directions in `{-1, 1}`, any playing/paused
states) the progress stays in `[0,1]`; moreover every parameter at which a
further frame evaluates the spline lies in `[0,1]`. -/
theorem c2_progress_in_unit_interval (curveAt : ℚ → Vec3) (cs : List Controls)
    (hdir : ∀ c ∈ cs, c.direction = 1 ∨ c.direction = -1)
    (hspeed : ∀ c ∈ cs, 1/10000 ≤ c.speed ∧ c.speed ≤ 5/1000) :
    (0 ≤ (runFrames curveAt cs (initState curveAt)).progress ∧
      (runFrames curveAt cs (initState curveAt)).progress ≤ 1) ∧
    ∀ c : Controls, (c.direction = 1 ∨ c.direction = -1) →
      ∀ q ∈ frameEvalParams c (runFrames curveAt cs (initState curveAt)),
        0 ≤ q ∧ q ≤ 1 := by
  have hrun := runFrames_progress_mem curveAt cs (initState curveAt) le_rfl zero_le_one
  refine ⟨hrun, ?_⟩
  intro c hc q hq
  set st := runFrames curveAt cs (initState curveAt) with hst
  by_cases hplay : c.isPlaying
  · have hmem := wrapProgress_mem (st.progress + c.speed * c.direction)
    have hd : -(1/100) ≤ 1/100 * c.direction := by
      rcases hc with h | h <;> rw [h] <;> norm_num
    have harg : 0 ≤ wrapProgress (st.progress + c.speed * c.direction)
        + 1/100 * c.direction + 1 := by
      linarith [hmem.1]
    have hmod := jsMod1_mem _ harg
    simp only [frameEvalParams, hplay, if_true, List.mem_cons, List.mem_singleton,
      List.not_mem_nil, or_false] at hq
    rcases hq with hq | hq <;> subst hq
    · exact ⟨hmem.1, hmem.2⟩
    · exact ⟨hmod.1, le_of_lt hmod.2⟩
  · simp [frameEvalParams, hplay] at hq

/-- Witness for C2 on a concrete three-frame schedule: one playing forward
frame, one paused frame, one playing backward frame. -/
theorem c2_progress_in_unit_interval_witness :
    (∀ c ∈ [demoControls, pausedControls,
        ({ speed := 5/1000, direction := -1, isPlaying := true } : Controls)],
      c.direction = 1 ∨ c.direction = -1) ∧
    (∀ c ∈ [demoControls, pausedControls,
        ({ speed := 5/1000, direction := -1, isPlaying := true } : Controls)],
      1/10000 ≤ c.speed ∧ c.speed ≤ 5/1000) ∧
    ((0 ≤ (runFrames trackCurve [demoControls, pausedControls,
          ({ speed := 5/1000, direction := -1, isPlaying := true } : Controls)]
          (initState trackCurve)).progress ∧
      (runFrames trackCurve [demoControls, pausedControls,
          ({ speed := 5/1000, direction := -1, isPlaying := true } : Controls)]
          (initState trackCurve)).progress ≤ 1) ∧
    ∀ c : Controls, (c.direction = 1 ∨ c.direction = -1) →
      ∀ q ∈ frameEvalParams c (runFrames trackCurve [demoControls, pausedControls,
          ({ speed := 5/1000, direction := -1, isPlaying := true } : Controls)]
          (initState trackCurve)),
        0 ≤ q ∧ q ≤ 1) :=
  ⟨by norm_num [demoControls, pausedControls],
   by norm_num [demoControls, pausedControls],
   c2_progress_in_unit_interval trackCurve _
     (by norm_num [demoControls, pausedControls])
     (by norm_num [demoControls, pausedControls])⟩

/-- C3: after a frame with playback active, the ball's position is the curve
point at the updated progress value. -/
theorem c3_ball_position_on_curve (curveAt : ℚ → Vec3) (c : Controls) (st : AnimState)
    (hplay : c.isPlaying = true) :
    (animateFrame curveAt c st).state.ballPos
      = curveAt ((animateFrame curveAt c st).state.progress) := by
  simp [animateFrame, hplay]

/-- Witness for C3 at the initial state and the initial control reading. -/
theorem c3_ball_position_on_curve_witness :
    demoControls.isPlaying = true ∧
    (animateFrame trackCurve demoControls (initState trackCurve)).state.ballPos
      = trackCurve ((animateFrame trackCurve demoControls (initState trackCurve)).state.progress) :=
  ⟨rfl, c3_ball_position_on_curve trackCurve demoControls (initState trackCurve) rfl⟩

/-- C4: in a frame with playback active, the ball's `lookAt` target is the
curve point at the parameter `(newProgress + 0.01 * direction + 1) % 1`; this
parameter lies in `[0, 1)` and differs from `newProgress + 0.01 * direction`
by an integer, so it is `0.01` ahead of the ball's progress in parameter for
direction `1` and `0.01` behind for direction `-1`, up to the wrap of the
parameter circle. -/
theorem c4_look_ahead_target (curveAt : ℚ → Vec3) (c : Controls) (st : AnimState)
    (hplay : c.isPlaying = true)
    (hdir : c.direction = 1 ∨ c.direction = -1) :
    ∃ q : ℚ,
      (animateFrame curveAt c st).state.ballLook = some (curveAt q) ∧
      q = jsMod1 ((animateFrame curveAt c st).state.progress + 1/100 * c.direction + 1) ∧
      (0 ≤ q ∧ q < 1) ∧
      ∃ k : ℤ, q = (animateFrame curveAt c st).state.progress
          + 1/100 * c.direction - k := by
  have hprog : (animateFrame curveAt c st).state.progress
      = wrapProgress (st.progress + c.speed * c.direction) := by
    simp [animateFrame, hplay]
  have hmem := wrapProgress_mem (st.progress + c.speed * c.direction)
  set np := wrapProgress (st.progress + c.speed * c.direction) with hnp
  have hd : -(1/100) ≤ 1/100 * c.direction := by
    rcases hdir with h | h <;> rw [h] <;> norm_num
  have harg : 0 ≤ np + 1/100 * c.direction + 1 := by
    linarith [hmem.1]
  refine ⟨jsMod1 (np + 1/100 * c.direction + 1), ?_, by rw [hprog], ?_, ?_⟩
  · simp [animateFrame, hplay, hnp]
  · exact jsMod1_mem _ harg
  · refine ⟨jsTrunc (np + 1/100 * c.direction + 1) - 1, ?_⟩
    rw [hprog]
    unfold jsMod1
    push_cast
    ring

/-- Witness for C4 at the initial state and the initial control reading. -/
theorem c4_look_ahead_target_witness :
    demoControls.isPlaying = true ∧
    (demoControls.direction = 1 ∨ demoControls.direction = -1) ∧
    ∃ q : ℚ,
      (animateFrame trackCurve demoControls (initState trackCurve)).state.ballLook
        = some (trackCurve q) ∧
      q = jsMod1 ((animateFrame trackCurve demoControls (initState trackCurve)).state.progress
            + 1/100 * demoControls.direction + 1) ∧
      (0 ≤ q ∧ q < 1) ∧
      ∃ k : ℤ, q = (animateFrame trackCurve demoControls (initState trackCurve)).state.progress
          + 1/100 * demoControls.direction - k :=
  ⟨rfl, Or.inl rfl,
   c4_look_ahead_target trackCurve demoControls (initState trackCurve) rfl (Or.inl rfl)⟩

/-- C5: both renditions' track curves are closed loops: whatever the knot
spacings, `getPoint 0 = getPoint 1`, and for the second rendition this common
point is the first control point `(-10, 2, 0)`, so a wrap of the progress
parameter from one end of `[0,1]` to the other lands on the same curve
point. -/
theorem c5_curve_closed_loop (dtf : Vec3 → Vec3 → ℚ) :
    getPointClosed curvePoints dtf 0 = getPointClosed curvePoints dtf 1 ∧
    getPointClosed curvePoints dtf 0 = ⟨-10, 2, 0⟩ ∧
    getPointClosed curvePointsV1 dtf 0 = getPointClosed curvePointsV1 dtf 1 := by
  refine ⟨?_, ?_, ?_⟩
  · unfold getPointClosed
    norm_num [curvePoints]
  · unfold getPointClosed
    norm_num [curvePoints, cubicAt, nonuniformCoeffs]
  · unfold getPointClosed
    norm_num [curvePointsV1]

/-- C6: a frame with playback paused leaves the whole animation state
(progress, ball position, ball orientation) unchanged, while every frame,
playing or paused, performs the orbit-controls update and the render. -/
theorem c6_paused_frame_inert (curveAt : ℚ → Vec3) (c : Controls) (st : AnimState)
    (hpause : c.isPlaying = false) :
    (animateFrame curveAt c st).state = st ∧
    ∀ c2 : Controls, (animateFrame curveAt c2 st).controlsUpdated = true ∧
      (animateFrame curveAt c2 st).rendered = true := by
  refine ⟨by simp [animateFrame, hpause], ?_⟩
  intro c2
  cases hc2 : c2.isPlaying <;> simp [animateFrame, hc2]

/-- Witness for C6 at the initial state and a paused control reading. -/
theorem c6_paused_frame_inert_witness :
    pausedControls.isPlaying = false ∧
    ((animateFrame trackCurve pausedControls (initState trackCurve)).state
        = initState trackCurve ∧
    ∀ c2 : Controls,
      (animateFrame trackCurve c2 (initState trackCurve)).controlsUpdated = true ∧
      (animateFrame trackCurve c2 (initState trackCurve)).rendered = true) :=
  ⟨rfl, c6_paused_frame_inert trackCurve pausedControls (initState trackCurve) rfl⟩

/-- C7 fails as stated: at progress `0.999` with speed `0.001` and direction
`1`, the first rendition computes `(0.999 + 0.001) % 1 = 0` while the second
rendition's snap-to-bound wraparound keeps `0.999 + 0.001 = 1` unchanged
(`1` is not `> 1`), so the two successor progress values differ. -/
theorem c7_counterexample :
    ¬ (progressUpdateV1 (999/1000) = wrapProgress (999/1000 + 1/1000 * 1)) := by
  norm_num [progressUpdateV1, jsMod1, jsTrunc, wrapProgress]

/-- C7, amended: for progress `p ∈ [0,1]` with speed `0.001` and direction
`1`, the two renditions' successor progress values agree exactly when
`p + 0.001 < 1`, i.e. when no wrap occurs; on the wrap (`p + 0.001 ≥ 1`) the
first rendition yields the fractional part while the second yields `0` (or
keeps `1` when `p + 0.001 = 1`). -/
theorem c7_updates_agree_iff (p : ℚ) (hp0 : 0 ≤ p) (hp1 : p ≤ 1) :
    progressUpdateV1 p = wrapProgress (p + 1/1000 * 1) ↔ p + 1/1000 < 1 := by
  unfold progressUpdateV1 jsMod1 jsTrunc wrapProgress
  simp only [mul_one]
  rw [if_pos (by linarith : (0:ℚ) ≤ p + 1/1000)]
  rcases lt_trichotomy (p + 1/1000) 1 with h | h | h
  · have hfl : ⌊p + 1/1000⌋ = 0 := by
      rw [Int.floor_eq_zero_iff, Set.mem_Ico]
      exact ⟨by linarith, h⟩
    rw [hfl, if_neg (by linarith), if_neg (by linarith)]
    push_cast
    rw [sub_zero]
    exact iff_of_true rfl h
  · have hfl : ⌊p + 1/1000⌋ = 1 := by
      rw [h]
      exact Int.floor_one
    rw [hfl, if_neg (by linarith), if_neg (by linarith)]
    push_cast
    constructor
    · intro heq
      linarith
    · intro hlt
      linarith
  · have hfl : ⌊p + 1/1000⌋ = 1 := by
      rw [Int.floor_eq_iff]
      push_cast
      constructor <;> linarith
    rw [hfl, if_pos h]
    push_cast
    constructor
    · intro heq
      linarith
    · intro hlt
      linarith

/-- Witness for the amended C7 away from the wrap (`p = 1/2`) and at the
boundary case (`p = 999/1000`, where the iff's both sides are false). -/
theorem c7_updates_agree_iff_witness :
    ((0:ℚ) ≤ 1/2 ∧ (1:ℚ)/2 ≤ 1 ∧
      (progressUpdateV1 (1/2) = wrapProgress (1/2 + 1/1000 * 1) ↔ (1:ℚ)/2 + 1/1000 < 1)) ∧
    ((0:ℚ) ≤ 999/1000 ∧ (999:ℚ)/1000 ≤ 1 ∧
      (progressUpdateV1 (999/1000) = wrapProgress (999/1000 + 1/1000 * 1)
        ↔ (999:ℚ)/1000 + 1/1000 < 1)) :=
  ⟨⟨by norm_num, by norm_num, c7_updates_agree_iff (1/2) (by norm_num) (by norm_num)⟩,
   ⟨by norm_num, by norm_num, c7_updates_agree_iff (999/1000) (by norm_num) (by norm_num)⟩⟩

/-- C8 fails as stated: two paused frames executed from states that agree on
`(progress, speed, direction, isPlaying)` but hold different ball positions
produce different resulting ball positions (a paused frame writes nothing, so
the prior ball state, which is outside the quoted tuple, flows into the
result). -/
theorem c8_counterexample :
    (⟨0, ⟨0, 0, 0⟩, none⟩ : AnimState).progress
        = (⟨0, ⟨1, 0, 0⟩, none⟩ : AnimState).progress ∧
    (animateFrame trackCurve ⟨1/1000, 1, false⟩ ⟨0, ⟨0, 0, 0⟩, none⟩).state.ballPos
      ≠ (animateFrame trackCurve ⟨1/1000, 1, false⟩ ⟨0, ⟨1, 0, 0⟩, none⟩).state.ballPos := by
  refine ⟨rfl, ?_⟩
  simp [animateFrame]

/-- C8, amended: for any two frames executed with the same control reading
from states with the same progress, the resulting progress values are
identical, and when playback is active the resulting ball positions and
orientations are identical as well — the active-frame update reads nothing
outside `(progress, speed, direction, isPlaying)` and the fixed curve.  (When
paused, the ball fields carry over their prior values, which lie outside that
tuple.) -/
theorem c8_active_frame_deterministic (curveAt : ℚ → Vec3) (c : Controls)
    (st1 st2 : AnimState) (hp : st1.progress = st2.progress) :
    (animateFrame curveAt c st1).state.progress
        = (animateFrame curveAt c st2).state.progress ∧
    (c.isPlaying = true →
      (animateFrame curveAt c st1).state.ballPos
          = (animateFrame curveAt c st2).state.ballPos ∧
      (animateFrame curveAt c st1).state.ballLook
          = (animateFrame curveAt c st2).state.ballLook) := by
  cases hc : c.isPlaying
  · exact ⟨by simp [animateFrame, hc, hp], by intro h; exact absurd h (by simp [hc])⟩
  · exact ⟨by simp [animateFrame, hc, hp], fun _ => ⟨by simp [animateFrame, hc, hp],
      by simp [animateFrame, hc, hp]⟩⟩

/-- Witness for the amended C8: two states sharing progress `0` but holding
different ball positions, under the initial (playing) control reading. -/
theorem c8_active_frame_deterministic_witness :
    (⟨0, ⟨0, 0, 0⟩, none⟩ : AnimState).progress
        = (⟨0, ⟨1, 0, 0⟩, none⟩ : AnimState).progress ∧
    ((animateFrame trackCurve demoControls ⟨0, ⟨0, 0, 0⟩, none⟩).state.progress
        = (animateFrame trackCurve demoControls ⟨0, ⟨1, 0, 0⟩, none⟩).state.progress ∧
    (demoControls.isPlaying = true →
      (animateFrame trackCurve demoControls ⟨0, ⟨0, 0, 0⟩, none⟩).state.ballPos
          = (animateFrame trackCurve demoControls ⟨0, ⟨1, 0, 0⟩, none⟩).state.ballPos ∧
      (animateFrame trackCurve demoControls ⟨0, ⟨0, 0, 0⟩, none⟩).state.ballLook
          = (animateFrame trackCurve demoControls ⟨0, ⟨1, 0, 0⟩, none⟩).state.ballLook)) :=
  ⟨rfl, c8_active_frame_deterministic trackCurve demoControls
    ⟨0, ⟨0, 0, 0⟩, none⟩ ⟨0, ⟨1, 0, 0⟩, none⟩ rfl⟩

/-- C9: every invocation of the `animate` body makes exactly one
`requestAnimationFrame` call, so starting from the single callback pending
after the initial synchronous `animate()` the event loop always has exactly
one pending per-frame callback (in particular at most one), and the cleanup's
single `cancelAnimationFrame` leaves none pending. -/
theorem c9_single_pending_callback (curveAt : ℚ → Vec3) :
    (∀ (c : Controls) (st : AnimState), (animateFrame curveAt c st).scheduled = 1) ∧
    (∀ (cs : List Controls) (st : AnimState), (runLoop curveAt cs (st, 1)).2 = 1) ∧
    (∀ (cs : List Controls) (st : AnimState), (runLoop curveAt cs (st, 1)).2 - 1 = 0) := by
  have hsched : ∀ (c : Controls) (st : AnimState),
      (animateFrame curveAt c st).scheduled = 1 := by
    intro c st
    cases hc : c.isPlaying <;> simp [animateFrame, hc]
  have hloop : ∀ (cs : List Controls) (st : AnimState),
      (runLoop curveAt cs (st, 1)).2 = 1 := by
    intro cs
    induction cs with
    | nil => intro st; rfl
    | cons c cs ih =>
        intro st
        rw [runLoop, hsched c st]
        exact ih _
  exact ⟨hsched, hloop, fun cs st => by rw [hloop cs st]⟩

/-- C10: starting from the initial speed `0.001`, any sequence of presses of
the `Slower` and `Faster` buttons keeps the speed within
`[0.0001, 0.005]`. -/
theorem c10_speed_clamped (bs : List SpeedBtn) :
    1/10000 ≤ speedAfter bs ∧ speedAfter bs ≤ 5/1000 := by
  unfold speedAfter
  have h : ∀ (s : ℚ), 1/10000 ≤ s → s ≤ 5/1000 →
      1/10000 ≤ bs.foldl (fun s b => pressSpeed b s) s ∧
        bs.foldl (fun s b => pressSpeed b s) s ≤ 5/1000 := by
    induction bs with
    | nil => intro s h0 h1; exact ⟨h0, h1⟩
    | cons b bs ih =>
        intro s h0 h1
        have hb := pressSpeed_mem b s h0 h1
        exact ih (pressSpeed b s) hb.1 hb.2
  exact h (1/1000) (by norm_num) (by norm_num)

end ThreePortfolio
